import Mathlib

/-! Shallow embedding of `rpionewire.go` (package `rpionewire`): discovery and
reading of DS18S20/DS18B20 one-wire temperature sensors exposed under
`/sys/bus/w1/devices`.

File-system reads and the `modprobe` invocation are modelled as explicit
inputs: a directory listing is a `List String`, an id file is an
`Option (List Nat)` (its bytes; `none` = open failure) and a status file is an
`Option (List String)` (its lines as produced by `bufio.Scanner`, newline
stripped; `none` = open failure).  Go's `float64` temperature arithmetic is
idealised as exact rational arithmetic (`Rat`); the only operation performed
on a temperature is one division by 1000.
-/

namespace Rpionewire

/-- Go struct `DS1820` (rpionewire.go:17-22).  `LastTemp` is `float64` in Go,
modelled as a rational; `ID` is `uint64`, modelled as `Nat` (the decoder masks
it to 48 bits). -/
structure DS1820 where
  ID : Nat
  Name : String
  DeviceType : String
  LastTemp : Rat
  deriving DecidableEq

/-- RE2 character class `\w` (ASCII word character `[0-9A-Za-z_]`). -/
def isWordChar (c : Char) : Bool := c.isAlphanum || c = '_'

/-- RE2 character class `\s` (`[\t\n\f\r ]`). -/
def isSpaceChar (c : Char) : Bool :=
  c = ' ' || c = '\t' || c = '\n' || c = '\x0c' || c = '\r'

/-- RE2 character class `\d` (`[0-9]`). -/
def isDigitChar (c : Char) : Bool := c.isDigit

/-- Match of `crc=\w+\s(YES|NO)` anchored at the head of the list, returning
the capture group.  `\w+` is greedy; word characters and whitespace are
disjoint, so only the maximal word-character run can be followed by `\s` and
no backtracking into a shorter run can succeed. -/
def crcMatchAt : List Char → Option String
  | 'c' :: 'r' :: 'c' :: '=' :: rest =>
    if rest.takeWhile isWordChar = [] then none
    else
      match rest.dropWhile isWordChar with
      | c :: after =>
        if isSpaceChar c then
          if ['Y', 'E', 'S'].isPrefixOf after then some "YES"
          else if ['N', 'O'].isPrefixOf after then some "NO"
          else none
        else none
      | [] => none
  | _ => none

/-- Go `_CrcCheckRegex.FindStringSubmatch` (rpionewire.go:29): leftmost match
of `crc=\w+\s(YES|NO)` in the line, returning the capture (`"YES"`/`"NO"`),
or `none` when the line has no match. -/
def crcCheckFind : List Char → Option String
  | [] => none
  | c :: rest =>
    match crcMatchAt (c :: rest) with
    | some g => some g
    | none => crcCheckFind rest

/-- Match of `\st=(\d+)` anchored at the head of the list, returning the
greedy capture (the maximal digit run, which must be non-empty). -/
def sampleAt : List Char → Option (List Char)
  | c :: 't' :: '=' :: rest =>
    if isSpaceChar c then
      match rest.takeWhile isDigitChar with
      | [] => none
      | d :: ds => some (d :: ds)
    else none
  | _ => none

/-- The tail `.*\st=(\d+)` of the sample regex anchored at the current
position: `.` cannot cross a newline and the greedy `.*` prefers the longest
prefix, so in the backtracking order of a leftmost-first engine the latest
occurrence of `\st=\d` wins. -/
def sampleGreedy : List Char → Option (List Char)
  | [] => none
  | c :: rest =>
    match (if c = '\n' then none else sampleGreedy rest) with
    | some ds => some ds
    | none => sampleAt (c :: rest)

/-- Go `_TestSampleRegex.FindStringSubmatch` (rpionewire.go:30): leftmost-first
unanchored match of `.*\st=(\d+)`, returning the captured digits, or `none`
when the line has no match. -/
def testSampleFind : List Char → Option (List Char)
  | [] => none
  | c :: rest =>
    match sampleGreedy (c :: rest) with
    | some ds => some ds
    | none => testSampleFind rest

/-- Numeric value of a digit string (most significant digit first). -/
def digitsToNat (ds : List Char) : Nat :=
  ds.foldl (fun n c => 10 * n + (c.toNat - 48)) 0

/-- Go `strconv.ParseInt(s, 10, 64)` restricted to the non-empty all-digit
strings the capture group `(\d+)` can produce: the value, or a range error
beyond `math.MaxInt64`. -/
def parseInt64 (ds : List Char) : Except String Int :=
  if digitsToNat ds ≤ 9223372036854775807 then Except.ok (digitsToNat ds : Int)
  else
    Except.error ("strconv.ParseInt: parsing \"" ++ String.mk ds ++
      "\": value out of range")

/-- The scanner loop of `ReadDevices` (rpionewire.go:62-92) over one device's
status-file lines, `i` being the line counter.  On line 0 only the CRC gate
runs; on every later line the sample regex must match and the parsed value is
stored.  A `bufio.Scanner` whose `Scan` has just returned `true` has a `nil`
`Err()`, so the two `scanner.Err()` checks inside the Go loop can never fire
and add nothing to the model.  Returns the Go error (if any) together with the
device state at exit, because the Go code mutates the record through a pointer
before it can fail. -/
def readDeviceLines : DS1820 → Nat → List String → Option String × DS1820
  | dev, _, [] => (none, dev)
  | dev, 0, line :: rest =>
    match crcCheckFind line.data with
    | some g =>
      if g ≠ "YES" then (some "CRC mismatch on read", dev)
      else readDeviceLines dev 1 rest
    | none => readDeviceLines dev 1 rest
  | dev, i + 1, line :: rest =>
    match testSampleFind line.data with
    | some ds =>
      match parseInt64 ds with
      | Except.ok v => readDeviceLines { dev with LastTemp := (v : Rat) / 1000 } (i + 2) rest
      | Except.error e => (some e, dev)
    | none => (some "EOF without data from w1", dev)

/-- Go `ReadDevices` (rpionewire.go:52-96).  `fs` maps a device name to its
status-file lines (`none`: `os.OpenFile` fails and its error is returned
as-is).  Returns the Go error (or `none`) and the registry contents at exit:
the Go code mutates the `*DS1820` records in place, so on error the slice
keeps every update made before the failure. -/
def ReadDevices (fs : String → Option (List String)) : List DS1820 → Option String × List DS1820
  | [] => (none, [])
  | dev :: rest =>
    match fs dev.Name with
    | none =>
      (some ("open /sys/bus/w1/devices/" ++ dev.Name ++
        "/w1_slave: no such file or directory"), dev :: rest)
    | some lines =>
      match readDeviceLines dev 0 lines with
      | (some e, dev2) => (some e, dev2 :: rest)
      | (none, dev2) =>
        let r := ReadDevices fs rest
        (r.1, dev2 :: r.2)

/-- Go `strings.Contains(s, sub)`. -/
def strContains (s sub : List Char) : Bool :=
  match s with
  | [] => sub.isEmpty
  | c :: rest => sub.isPrefixOf (c :: rest) || strContains rest sub

/-- Go `findDevices` (rpionewire.go:100-133) applied to the raw
`Readdirnames` listing of `/sys/bus/w1/devices`.  The `modprobe` invocation
and the directory open/read, whose failures merely propagate, stay outside
the model.  Note the length guard runs on the raw listing, before the
bus-master filter. -/
def findDevices (names : List String) : Except String (List String) :=
  if names.length ≤ 1 then
    Except.error "files in /sys/bus/w1/devies: no devices found"
  else
    Except.ok (names.filter (fun n => !strContains n.data "w1_bus_master".data))

/-- Little-endian `uint64` as read by
`binary.Read(idFile, binary.LittleEndian, &idFileContent)` from the first
eight bytes of the id file. -/
def leUInt64 (bs : List Nat) : Nat :=
  (bs.take 8).foldr (fun b acc => 256 * acc + b) 0

/-- Lowercase hex rendering matching `fmt`'s `%x` on the family-code byte. -/
def hexByte (n : Nat) : String := String.mk (Nat.toDigits 16 n)

/-- Go `(*DS1820).getID` (rpionewire.go:146-174).  `idBytes` is the content
of `/sys/bus/w1/devices/<name>/id` (`none`: open failure).  `binary.Read`
into a `uint64` fails when fewer than eight bytes are available.  The decoded
(`ID`, `DeviceType`) pair is returned instead of mutated into the record. -/
def getID (name : String) (idBytes : Option (List Nat)) : Except String (Nat × String) :=
  match idBytes with
  | none =>
    Except.error ("open /sys/bus/w1/devices/" ++ name ++
      "/id: no such file or directory")
  | some bs =>
    if bs.length < 8 then
      Except.error ("Error decoding /sys/bus/w1/devices/" ++ name ++
        "/id device id: unexpected EOF")
    else
      let v := leUInt64 bs
      if v % 256 = 0x28 then
        Except.ok ((v &&& 0x00ffffffffffff00) >>> 8, "DS18B20")
      else if v % 256 = 0x10 then
        Except.ok ((v &&& 0x00ffffffffffff00) >>> 8, "DS18S20")
      else
        Except.error ("Error decoding /sys/bus/w1/devices/" ++ name ++
          "/id device id: Unrecognized one wire family code 0x" ++ hexByte (v % 256))

/-- Go `newDS1820` (rpionewire.go:135-144): a fresh zero-valued record with
`Name` set, then `getID` fills `ID` and `DeviceType`.  On `getID` failure Go
returns `(nil, err)`. -/
def newDS1820 (name : String) (idBytes : Option (List Nat)) : Except String DS1820 :=
  match getID name idBytes with
  | Except.ok p => Except.ok { ID := p.1, Name := name, DeviceType := p.2, LastTemp := 0 }
  | Except.error e => Except.error e

/-- Outcome of a Go call that may return a value, return an error, or panic
at runtime. -/
inductive LoadResult where
  | ok : List DS1820 → LoadResult
  | err : String → LoadResult
  | crash : String → LoadResult
  deriving DecidableEq

/-- The construction loop of `LoadDevices` (rpionewire.go:39-45).  When
`newDS1820` fails, the Go code has just stored `nil` into `devices[i]` and
then evaluates `devices[i].Name` as an argument of `fmt.Errorf`: it
dereferences a nil pointer, so the call panics instead of returning the
intended error. -/
def loadLoop (fsId : String → Option (List Nat)) : List String → LoadResult
  | [] => LoadResult.ok []
  | n :: rest =>
    match newDS1820 n (fsId n) with
    | Except.error _ =>
      LoadResult.crash "runtime error: invalid memory address or nil pointer dereference"
    | Except.ok d =>
      match loadLoop fsId rest with
      | LoadResult.ok ds => LoadResult.ok (d :: ds)
      | r => r

/-- Go `LoadDevices` (rpionewire.go:33-48) applied to the raw directory
listing and to the id-file contents of each device. -/
def LoadDevices (listing : List String) (fsId : String → Option (List Nat)) : LoadResult :=
  match findDevices listing with
  | Except.error e => LoadResult.err ("Error finding one wire devices: " ++ e)
  | Except.ok names => loadLoop fsId names

/-- The value a status line contributes when it is read as a sample line: the
captured digits of the sample regex parsed by `ParseInt`, when both steps
succeed. -/
def lineVal (l : String) : Option Int :=
  match testSampleFind l.data with
  | some ds =>
    match parseInt64 ds with
    | Except.ok v => some v
    | Except.error _ => none
  | none => none

/-! Helper lemmas -/

/-- The scanner loop only ever rewrites `LastTemp`; the identity fields of the
device survive any (partial) processing of its status file. -/
theorem readDeviceLines_snd_Name (lines : List String) (dev : DS1820) (i : Nat) :
    (readDeviceLines dev i lines).2.Name = dev.Name := by
  induction lines generalizing dev i with
  | nil => cases i <;> rfl
  | cons l rest ih =>
    cases i with
    | zero =>
      simp only [readDeviceLines]
      split
      · split
        · rfl
        · exact ih dev 1
      · exact ih dev 1
    | succ j =>
      simp only [readDeviceLines]
      split
      · split
        · exact ih _ _
        · rfl
      · rfl

/-- A first status line that either has no CRC marker or whose marker reads
`YES` passes the gate and processing moves on to the remaining lines. -/
theorem readDeviceLines_crc_pass (dev : DS1820) (l1 : String) (rest : List String)
    (h : crcCheckFind l1.data = none ∨ crcCheckFind l1.data = some "YES") :
    readDeviceLines dev 0 (l1 :: rest) = readDeviceLines dev 1 rest := by
  rcases h with h | h
  · simp only [readDeviceLines, h]
  · simp [readDeviceLines, h]

/-- A later line on which the sample regex captures digits that `ParseInt`
accepts stores the value and keeps scanning. -/
theorem readDeviceLines_sample_step (dev : DS1820) (i : Nat) (line : String)
    (rest : List String) (ds : List Char) (v : Int)
    (hm : testSampleFind line.data = some ds) (hv : parseInt64 ds = Except.ok v) :
    readDeviceLines dev (i + 1) (line :: rest) =
      readDeviceLines { dev with LastTemp := (v : Rat) / 1000 } (i + 2) rest := by
  simp only [readDeviceLines, hm, hv]

/-- A decimal digit is not an RE2 whitespace character. -/
theorem isSpaceChar_eq_false_of_isDigitChar (c : Char) (h : isDigitChar c = true) :
    isSpaceChar c = false := by
  cases hsp : isSpaceChar c with
  | false => rfl
  | true =>
    exfalso
    simp only [isSpaceChar, Bool.or_eq_true, decide_eq_true_eq] at hsp
    rcases hsp with ((((rfl | rfl) | rfl) | rfl) | rfl) <;> exact absurd h (by decide)

/-- The anchored `\st=(\d+)` cannot match when the head is not whitespace. -/
theorem sampleAt_none_of_head_not_space (c : Char) (l : List Char)
    (h : isSpaceChar c = false) : sampleAt (c :: l) = none := by
  unfold sampleAt
  split
  · rename_i heq
    rw [List.cons.injEq] at heq
    obtain ⟨h1, -⟩ := heq
    subst h1
    rw [h]
    simp
  · rfl

/-- The greedy `.*\st=(\d+)` cannot match a string without whitespace. -/
theorem sampleGreedy_none_of_no_space (l : List Char)
    (h : ∀ c ∈ l, isSpaceChar c = false) : sampleGreedy l = none := by
  induction l with
  | nil => rfl
  | cons c rest ih =>
    have hrest : sampleGreedy rest = none :=
      ih fun c' hc' => h c' (List.mem_cons_of_mem c hc')
    have hat : sampleAt (c :: rest) = none :=
      sampleAt_none_of_head_not_space c rest (h c (List.mem_cons_self c rest))
    have hif : (if c = '\n' then none else (none : Option (List Char))) = none := by
      split <;> rfl
    simp only [sampleGreedy, hrest, hif, hat]

/-- The sample regex finds no match in a line without whitespace. -/
theorem testSampleFind_none_of_no_space (l : List Char)
    (h : ∀ c ∈ l, isSpaceChar c = false) : testSampleFind l = none := by
  induction l with
  | nil => rfl
  | cons c rest ih =>
    have hg : sampleGreedy (c :: rest) = none := sampleGreedy_none_of_no_space _ h
    simp only [testSampleFind, hg]
    exact ih fun c' hc' => h c' (List.mem_cons_of_mem c hc')

/-- The anchored `\st=(\d+)` on a whitespace head, the literal `t=`, and a
non-empty all-digit remainder captures exactly that remainder. -/
theorem sampleAt_space_t_digits (ds : List Char) (hne : ds ≠ [])
    (hds : ∀ c ∈ ds, isDigitChar c = true) :
    sampleAt (' ' :: 't' :: '=' :: ds) = some ds := by
  have htw : ds.takeWhile isDigitChar = ds := List.takeWhile_eq_self_iff.mpr hds
  cases ds with
  | nil => exact absurd rfl hne
  | cons d ds' =>
    simp only [sampleAt, htw]
    simp [isSpaceChar]

/-- The full `.*\st=(\d+)` on a line made of one space, the literal `t=`, and
a non-empty all-digit remainder captures exactly that remainder. -/
theorem sampleGreedy_space_t_digits (ds : List Char) (hne : ds ≠ [])
    (hds : ∀ c ∈ ds, isDigitChar c = true) :
    sampleGreedy (' ' :: 't' :: '=' :: ds) = some ds := by
  have hnos : ∀ c ∈ 't' :: '=' :: ds, isSpaceChar c = false := by
    intro c hc
    rw [List.mem_cons] at hc
    rcases hc with rfl | hc
    · decide
    rw [List.mem_cons] at hc
    rcases hc with rfl | hc
    · decide
    exact isSpaceChar_eq_false_of_isDigitChar c (hds c hc)
  have hg : sampleGreedy ('t' :: '=' :: ds) = none := sampleGreedy_none_of_no_space _ hnos
  have hif : (if ' ' = '\n' then none else sampleGreedy ('t' :: '=' :: ds)) = none := by
    rw [if_neg (by decide), hg]
  calc sampleGreedy (' ' :: 't' :: '=' :: ds)
      = match (if ' ' = '\n' then none else sampleGreedy ('t' :: '=' :: ds)) with
        | some r => some r
        | none => sampleAt (' ' :: 't' :: '=' :: ds) := rfl
    _ = some ds := by rw [hif, sampleAt_space_t_digits ds hne hds]

/-- Processing a block of lines that all match the sample regex with
`ParseInt`-accepted values folds the stores over the device, line by line in
order, and continues with the remaining lines. -/
theorem readDeviceLines_matched_append (lines : List String) (vs : List Int)
    (hm : lines.map lineVal = vs.map some) (dev : DS1820) (tail : List String) (i : Nat) :
    readDeviceLines dev (i + 1) (lines ++ tail) =
      readDeviceLines (vs.foldl (fun d v => { d with LastTemp := ((v : Int) : Rat) / 1000 }) dev)
        (lines.length + (i + 1)) tail := by
  induction lines generalizing vs dev i with
  | nil =>
    cases vs with
    | nil => simp
    | cons v vs' => simp at hm
  | cons l rest ih =>
    cases vs with
    | nil => simp at hm
    | cons v vs' =>
      rw [List.map_cons, List.map_cons] at hm
      injection hm with h1 h2
      obtain ⟨ds, hds, hp⟩ : ∃ ds, testSampleFind l.data = some ds ∧ parseInt64 ds = Except.ok v := by
        unfold lineVal at h1
        rcases hfind : testSampleFind l.data with _ | ds
        · rw [hfind] at h1
          exact absurd (show (none : Option Int) = some v from h1) (by simp)
        · rw [hfind] at h1
          have h1b : (match parseInt64 ds with
              | Except.ok w => some w
              | Except.error _ => none) = some v := h1
          rcases hpi : parseInt64 ds with e | w
          · rw [hpi] at h1b
            exact absurd (show (none : Option Int) = some v from h1b) (by simp)
          · rw [hpi] at h1b
            have hwv : some w = some v := h1b
            injection hwv with hwv
            exact ⟨ds, rfl, by rw [hpi, hwv]⟩
      rw [List.cons_append, readDeviceLines_sample_step dev i l (rest ++ tail) ds v hds hp]
      rw [ih vs' h2 _ (i + 1)]
      have hstep : (v :: vs').foldl
            (fun d w => { d with LastTemp := ((w : Int) : Rat) / 1000 }) dev =
          vs'.foldl (fun d w => { d with LastTemp := ((w : Int) : Rat) / 1000 })
            { dev with LastTemp := ((v : Int) : Rat) / 1000 } := rfl
      rw [hstep, List.length_cons]
      congr 1
      omega

/-- Folding the per-line stores leaves the value of the last line in
`LastTemp`. -/
theorem foldl_temp_last (vs : List Int) (v : Int) (dev : DS1820) :
    (v :: vs).foldl (fun d w => { d with LastTemp := ((w : Int) : Rat) / 1000 }) dev =
      { dev with LastTemp := (((v :: vs).getLastD 0 : Int) : Rat) / 1000 } := by
  induction vs generalizing v dev with
  | nil => rfl
  | cons v' vs' ih =>
    have hstep : (v :: v' :: vs').foldl
          (fun d w => { d with LastTemp := ((w : Int) : Rat) / 1000 }) dev =
        (v' :: vs').foldl (fun d w => { d with LastTemp := ((w : Int) : Rat) / 1000 })
          { dev with LastTemp := ((v : Int) : Rat) / 1000 } := rfl
    rw [hstep, ih v' { dev with LastTemp := ((v : Int) : Rat) / 1000 }]
    simp [List.getLastD_cons]

/-! Claim theorems -/

/-- C1. The claim says a failed identity decode makes `LoadDevices` return an
error naming the failing device, the error path never crashing.  The code
instead panics: on `newDS1820` failure it has stored `nil` into `devices[i]`
and then evaluates `devices[i].Name` while building the error, a nil-pointer
dereference.  Concretely, a two-entry listing whose first device has family
code `0x00` in its id file makes `LoadDevices` crash rather than return an
error. -/
theorem LoadDevices_nil_deref_crash :
    LoadDevices ["00-bad1", "28-good1"]
      (fun n => if n = "00-bad1" then some [0, 1, 2, 3, 4, 5, 6, 7]
                else some [0x28, 1, 2, 3, 4, 5, 6, 7]) =
    LoadResult.crash "runtime error: invalid memory address or nil pointer dereference" := by
  decide

/-- C2. The claim says exhausting a status file with no line matching the
temperature pattern fails with "EOF without data".  The scanner loop has no
check after it, so the code silently succeeds instead: with three devices
whose second status file is empty, `ReadDevices` returns no error, updates
devices 1 and 3, and leaves device 2 untouched; likewise a file holding only
the CRC line produces no error. -/
theorem ReadDevices_exhausted_without_data_succeeds :
    (ReadDevices (fun n => if n = "28-a" then some ["ab crc=1a YES", "x t=23562"]
                  else if n = "28-b" then some []
                  else some ["ab crc=1a YES", "x t=1000"])
       [⟨1, "28-a", "DS18B20", 0⟩, ⟨2, "28-b", "DS18B20", 0⟩, ⟨3, "28-c", "DS18B20", 0⟩] =
     (none, [⟨1, "28-a", "DS18B20", ((23562 : Int) : Rat) / 1000⟩,
             ⟨2, "28-b", "DS18B20", 0⟩,
             ⟨3, "28-c", "DS18B20", ((1000 : Int) : Rat) / 1000⟩])) ∧
    ReadDevices (fun _ => some ["ab crc=1a YES"]) [⟨2, "28-b", "DS18B20", 0⟩] =
      (none, [⟨2, "28-b", "DS18B20", 0⟩]) :=
  ⟨rfl, rfl⟩

/-- C6 counterexample. The claim says a listing whose entries are all
bus-master entries makes `findDevices` fail.  The length guard runs before
the filter, so two bus-master entries pass it and `findDevices` returns an
empty sequence with no error. -/
theorem findDevices_two_bus_masters_ok_empty :
    findDevices ["w1_bus_master1", "w1_bus_master2"] = Except.ok [] := by
  rfl

/-- C6 (amended). `findDevices` fails only when the raw listing has at most
one entry; a listing of two or more entries that are all bus-master entries
is accepted and yields the empty sequence without error. -/
theorem findDevices_all_bus_masters_ok_empty (names : List String)
    (h2 : 2 ≤ names.length)
    (hall : ∀ n ∈ names, strContains n.data "w1_bus_master".data = true) :
    findDevices names = Except.ok [] := by
  unfold findDevices
  rw [if_neg (by omega)]
  congr 1
  rw [List.filter_eq_nil_iff]
  intro n hn
  simp [hall n hn]

/-- C6 witness for the amended theorem. -/
theorem findDevices_all_bus_masters_witness :
    findDevices ["w1_bus_master1", "w1_bus_master2", "w1_bus_master3"] = Except.ok [] :=
  findDevices_all_bus_masters_ok_empty ["w1_bus_master1", "w1_bus_master2", "w1_bus_master3"]
    (by decide) (by decide)

/-- C7. When the first status line carries the CRC marker with a verdict
other than `YES`, `ReadDevices` stops with the CRC-mismatch error and returns
with the failing device — and every later device — exactly as it was. -/
theorem ReadDevices_crc_mismatch_gate (fs : String → Option (List String))
    (dev : DS1820) (rest : List DS1820) (l1 : String) (ls : List String) (g : String)
    (hfs : fs dev.Name = some (l1 :: ls))
    (hg : crcCheckFind l1.data = some g) (hne : g ≠ "YES") :
    ReadDevices fs (dev :: rest) = (some "CRC mismatch on read", dev :: rest) := by
  have hlines : readDeviceLines dev 0 (l1 :: ls) = (some "CRC mismatch on read", dev) := by
    simp only [readDeviceLines, hg]
    rw [if_pos hne]
  simp only [ReadDevices, hfs, hlines]

/-- C7 witness: the spec's own example, a `crc=1a NO` first line followed by a
parsable sample line, fails with the CRC error and leaves the device
untouched. -/
theorem ReadDevices_crc_mismatch_gate_witness :
    ReadDevices (fun _ => some ["ab crc=1a NO", "x t=25000"])
      [⟨1, "28-a", "DS18B20", 0⟩] =
    (some "CRC mismatch on read", [⟨1, "28-a", "DS18B20", 0⟩]) :=
  ReadDevices_crc_mismatch_gate _ _ _ _ _ "NO" rfl rfl (by decide)

/-- C9. A raw listing with at most one entry makes `findDevices` fail with
the "no devices found" error regardless of what the entry is. -/
theorem findDevices_small_listing_error (names : List String)
    (h : names.length ≤ 1) :
    findDevices names = Except.error "files in /sys/bus/w1/devies: no devices found" := by
  unfold findDevices
  rw [if_pos h]

/-- C9 witness: a single real (non-bus-master) device is still rejected. -/
theorem findDevices_small_listing_error_witness :
    findDevices ["28-0000aabbcc"] = Except.error "files in /sys/bus/w1/devies: no devices found" :=
  findDevices_small_listing_error ["28-0000aabbcc"] (by decide)

/-- C4. `getID` reads the eight id-file bytes as a little-endian 64-bit
value; low byte `0x28` classifies the device as DS18B20, `0x10` as DS18S20,
and any other low byte fails with an error; in the recognized cases the id is
`(value &&& 0x00ffffffffffff00) >>> 8`. -/
theorem getID_decodes_little_endian (n : String) (b0 b1 b2 b3 b4 b5 b6 b7 : Nat)
    (h0 : b0 < 256) :
    (b0 = 0x28 → getID n (some [b0, b1, b2, b3, b4, b5, b6, b7]) =
      Except.ok (((b0 + 256 * b1 + 65536 * b2 + 16777216 * b3 + 4294967296 * b4 +
        1099511627776 * b5 + 281474976710656 * b6 + 72057594037927936 * b7) &&&
        0x00ffffffffffff00) >>> 8, "DS18B20")) ∧
    (b0 = 0x10 → getID n (some [b0, b1, b2, b3, b4, b5, b6, b7]) =
      Except.ok (((b0 + 256 * b1 + 65536 * b2 + 16777216 * b3 + 4294967296 * b4 +
        1099511627776 * b5 + 281474976710656 * b6 + 72057594037927936 * b7) &&&
        0x00ffffffffffff00) >>> 8, "DS18S20")) ∧
    (b0 ≠ 0x28 → b0 ≠ 0x10 →
      ∃ msg, getID n (some [b0, b1, b2, b3, b4, b5, b6, b7]) = Except.error msg) := by
  have hv : leUInt64 [b0, b1, b2, b3, b4, b5, b6, b7] =
      b0 + 256 * b1 + 65536 * b2 + 16777216 * b3 + 4294967296 * b4 +
        1099511627776 * b5 + 281474976710656 * b6 + 72057594037927936 * b7 := by
    simp [leUInt64]
    ring
  have hm : leUInt64 [b0, b1, b2, b3, b4, b5, b6, b7] % 256 = b0 := by
    rw [hv]
    omega
  refine ⟨fun hb => ?_, fun hb => ?_, fun hb1 hb2 => ?_⟩
  · simp only [getID]
    rw [if_neg (by simp), if_pos (by rw [hm, hb]), hv]
  · simp only [getID]
    rw [if_neg (by simp), if_neg (by rw [hm, hb]; decide), if_pos (by rw [hm, hb]), hv]
  · simp only [getID]
    rw [if_neg (by simp), if_neg (by rw [hm]; exact hb1), if_neg (by rw [hm]; exact hb2)]
    exact ⟨_, rfl⟩

/-- C4 witness: the spec's example blob `0x00AABBCCDDEE0F28` (little-endian
bytes `28 0f ee dd cc bb aa 00`) decodes to id `0xAABBCCDDEE0F`, type
DS18B20. -/
theorem getID_decodes_little_endian_witness :
    getID "28-x" (some [0x28, 0x0f, 0xee, 0xdd, 0xcc, 0xbb, 0xaa, 0x00]) =
      Except.ok (0xaabbccddee0f, "DS18B20") := by
  have h := (getID_decodes_little_endian "28-x" 0x28 0x0f 0xee 0xdd 0xcc 0xbb 0xaa 0x00
    (by decide)).1 rfl
  have harith : ((0x28 + 256 * 0x0f + 65536 * 0xee + 16777216 * 0xdd + 4294967296 * 0xcc +
      1099511627776 * 0xbb + 281474976710656 * 0xaa + 72057594037927936 * 0x00) &&&
      0x00ffffffffffff00) >>> 8 = 0xaabbccddee0f := by decide
  rw [harith] at h
  exact h

/-- C5 counterexample. The claim says a signed field such as `t=-500` is
parsed and stored.  The sample regex accepts only unsigned digit runs, so a
`t=-500` line does not match at all and the call fails with the failing
device unchanged. -/
theorem ReadDevices_rejects_signed_sample :
    ReadDevices (fun _ => some ["ab crc=1a YES", "x t=-500"])
      [⟨1, "28-a", "DS18B20", 0⟩] =
    (some "EOF without data from w1", [⟨1, "28-a", "DS18B20", 0⟩]) ∧
    testSampleFind "x t=-500".data = none :=
  ⟨rfl, rfl⟩

/-- C5 (amended). For a status line on which the sample pattern captures a
digit run that `ParseInt` accepts, `ReadDevices` stores the value divided by
1000 into the device's `LastTemp`; sign characters are never part of a
match. -/
theorem ReadDevices_parses_unsigned_sample (fs : String → Option (List String))
    (dev : DS1820) (l1 l2 : String) (ds : List Char) (v : Int)
    (hcrc : crcCheckFind l1.data = none ∨ crcCheckFind l1.data = some "YES")
    (hm : testSampleFind l2.data = some ds) (hv : parseInt64 ds = Except.ok v)
    (hfs : fs dev.Name = some [l1, l2]) :
    ReadDevices fs [dev] = (none, [{ dev with LastTemp := ((v : Int) : Rat) / 1000 }]) := by
  have hlines : readDeviceLines dev 0 [l1, l2] =
      (none, { dev with LastTemp := ((v : Int) : Rat) / 1000 }) := by
    rw [readDeviceLines_crc_pass dev l1 [l2] hcrc]
    exact (readDeviceLines_sample_step dev 0 l2 [] ds v hm hv).trans rfl
  simp only [ReadDevices, hfs, hlines]

/-- C5 witness: the spec's sample line stores 23.562 °C (= 23562/1000). -/
theorem ReadDevices_parses_unsigned_sample_witness :
    ReadDevices (fun _ => some ["ab crc=1a YES", "23 01 4b 46 7f ff 0c 10 45 t=23562"])
      [⟨1, "28-a", "DS18B20", 0⟩] =
    (none, [⟨1, "28-a", "DS18B20", ((23562 : Int) : Rat) / 1000⟩]) :=
  ReadDevices_parses_unsigned_sample _ ⟨1, "28-a", "DS18B20", 0⟩ "ab crc=1a YES"
    "23 01 4b 46 7f ff 0c 10 45 t=23562" "23562".data 23562 (Or.inr rfl) rfl rfl rfl

/-- C8 counterexample. The claim says a `t=<digits>` field at the very start
of a line, with no preceding character, is parsed and stored.  The pattern
`.*\st=(\d+)` demands a whitespace character immediately before `t=`, so the
line `t=25000` does not match and the call fails with the device unchanged. -/
theorem ReadDevices_sample_at_line_start_fails :
    ReadDevices (fun _ => some ["ab crc=1a YES", "t=25000"])
      [⟨1, "28-a", "DS18B20", 0⟩] =
    (some "EOF without data from w1", [⟨1, "28-a", "DS18B20", 0⟩]) :=
  rfl

/-- C8 (amended). The sample pattern matches a `t=<digits>` field anywhere in
the line provided the character immediately before `t=` is whitespace: with a
leading space the digits are captured, while the same field at the very start
of the line does not match at all. -/
theorem testSample_requires_leading_space (ds : List Char) (hne : ds ≠ [])
    (hds : ∀ c ∈ ds, isDigitChar c = true) :
    testSampleFind (' ' :: 't' :: '=' :: ds) = some ds ∧
    testSampleFind ('t' :: '=' :: ds) = none := by
  constructor
  · have hg := sampleGreedy_space_t_digits ds hne hds
    calc testSampleFind (' ' :: 't' :: '=' :: ds)
        = match sampleGreedy (' ' :: 't' :: '=' :: ds) with
          | some r => some r
          | none => testSampleFind ('t' :: '=' :: ds) := rfl
      _ = some ds := by rw [hg]
  · apply testSampleFind_none_of_no_space
    intro c hc
    rw [List.mem_cons] at hc
    rcases hc with rfl | hc
    · decide
    rw [List.mem_cons] at hc
    rcases hc with rfl | hc
    · decide
    exact isSpaceChar_eq_false_of_isDigitChar c (hds c hc)

/-- C8 witness for the amended theorem, at the digits `25000`. -/
theorem testSample_requires_leading_space_witness :
    testSampleFind (' ' :: 't' :: '=' :: "25000".data) = some "25000".data ∧
    testSampleFind ('t' :: '=' :: "25000".data) = none :=
  testSample_requires_leading_space "25000".data (by decide) (by decide)

/-- The scanner loop stops without error once the lines run out, whatever the
line counter is. -/
theorem readDeviceLines_nil (dev : DS1820) (i : Nat) :
    readDeviceLines dev i [] = (none, dev) := by
  cases i <;> rfl

/-- At any line past the first, a line the sample regex does not match stops
the scanner loop with the EOF error and the device state reached so far. -/
theorem readDeviceLines_bad_line (dev : DS1820) (i : Nat) (lbad : String)
    (rest : List String) (hbad : testSampleFind lbad.data = none) (hi : i ≠ 0) :
    readDeviceLines dev i (lbad :: rest) = (some "EOF without data from w1", dev) := by
  cases i with
  | zero => exact absurd rfl hi
  | succ j => simp only [readDeviceLines, hbad]

/-- C10. A successful sample parse is not a terminal state: with every line
after the first matching the pattern, each match stores its value in order
and the final `LastTemp` is the last line's value; appending one
non-matching line instead fails the call even though the device's
`LastTemp` has already been overwritten with that same last value. -/
theorem ReadDevices_matches_every_later_line (fs fs2 : String → Option (List String))
    (dev : DS1820) (l1 : String) (lines : List String) (v : Int) (vs : List Int)
    (lbad : String)
    (hcrc : crcCheckFind l1.data = none ∨ crcCheckFind l1.data = some "YES")
    (hm : lines.map lineVal = (v :: vs).map some)
    (hbad : testSampleFind lbad.data = none)
    (hfs : fs dev.Name = some (l1 :: lines))
    (hfs2 : fs2 dev.Name = some (l1 :: (lines ++ [lbad]))) :
    ReadDevices fs [dev] =
      (none, [{ dev with LastTemp := (((v :: vs).getLastD 0 : Int) : Rat) / 1000 }]) ∧
    ReadDevices fs2 [dev] =
      (some "EOF without data from w1",
        [{ dev with LastTemp := (((v :: vs).getLastD 0 : Int) : Rat) / 1000 }]) := by
  have hfold := foldl_temp_last vs v dev
  constructor
  · have hlines : readDeviceLines dev 0 (l1 :: lines) =
        (none, { dev with LastTemp := (((v :: vs).getLastD 0 : Int) : Rat) / 1000 }) := by
      rw [readDeviceLines_crc_pass dev l1 lines hcrc]
      have happ := readDeviceLines_matched_append lines (v :: vs) hm dev [] 0
      rw [List.append_nil] at happ
      rw [happ, readDeviceLines_nil, hfold]
    simp only [ReadDevices, hfs, hlines]
  · have hlines2 : readDeviceLines dev 0 (l1 :: (lines ++ [lbad])) =
        (some "EOF without data from w1",
          { dev with LastTemp := (((v :: vs).getLastD 0 : Int) : Rat) / 1000 }) := by
      rw [readDeviceLines_crc_pass dev l1 (lines ++ [lbad]) hcrc]
      rw [readDeviceLines_matched_append lines (v :: vs) hm dev [lbad] 0]
      rw [readDeviceLines_bad_line _ _ _ _ hbad (by omega), hfold]
    simp only [ReadDevices, hfs2, hlines2]

/-- C10 witness: two matching lines `t=100`, `t=200` leave 0.2 °C stored; the
same file with a trailing non-matching line fails while keeping the stored
0.2 °C. -/
theorem ReadDevices_matches_every_later_line_witness :
    ReadDevices (fun _ => some ["ab crc=1a YES", "x t=100", "y t=200"])
      [⟨1, "28-a", "DS18B20", 0⟩] =
      (none, [⟨1, "28-a", "DS18B20",
        ((([100, 200] : List Int).getLastD 0 : Int) : Rat) / 1000⟩]) ∧
    ReadDevices (fun _ => some ["ab crc=1a YES", "x t=100", "y t=200", "junk"])
      [⟨1, "28-a", "DS18B20", 0⟩] =
      (some "EOF without data from w1",
        [⟨1, "28-a", "DS18B20",
          ((([100, 200] : List Int).getLastD 0 : Int) : Rat) / 1000⟩]) :=
  ReadDevices_matches_every_later_line
    (fun _ => some ["ab crc=1a YES", "x t=100", "y t=200"])
    (fun _ => some ["ab crc=1a YES", "x t=100", "y t=200", "junk"])
    ⟨1, "28-a", "DS18B20", 0⟩ "ab crc=1a YES" ["x t=100", "y t=200"] 100 [200] "junk"
    (Or.inr rfl) (by decide) rfl rfl rfl

/-- C3 counterexample. The claim says a failure while processing device `k`
leaves devices `k..n` entirely unchanged.  But the failing device itself can
already have been updated: a status file with a matching line before a
non-matching one fails the call after overwriting `LastTemp` of the failing
device (0 becomes 0.1). -/
theorem ReadDevices_failure_updates_failing_device :
    ReadDevices (fun _ => some ["ab crc=1a YES", "cd t=100", "junk"])
      [⟨1, "28-a", "DS18B20", 0⟩] =
    (some "EOF without data from w1",
      [⟨1, "28-a", "DS18B20", ((100 : Int) : Rat) / 1000⟩]) ∧
    ((100 : Int) : Rat) / 1000 ≠ 0 :=
  ⟨rfl, by norm_num⟩

/-- C3 (amended). When `ReadDevices` returns an error there is a position `k`
inside the registry such that every device after `k` is entirely unchanged,
every device before `k` was fully processed from its status file (with its
resulting update in place), and position `k` still holds the failing device
(same `Name`), whose `LastTemp` may or may not have been updated before the
failure; the registry keeps its length. -/
theorem ReadDevices_error_frame (fs : String → Option (List String))
    (ds ds2 : List DS1820) (e : String)
    (h : ReadDevices fs ds = (some e, ds2)) :
    ds2.length = ds.length ∧
    ∃ k, k < ds.length ∧
      (∀ i, k < i → ds2[i]? = ds[i]?) ∧
      (∀ i, i < k → ∀ dev, ds[i]? = some dev →
        ∃ lines dev2, fs dev.Name = some lines ∧
          readDeviceLines dev 0 lines = (none, dev2) ∧ ds2[i]? = some dev2) ∧
      (∀ dev, ds[k]? = some dev →
        ∃ dev2, ds2[k]? = some dev2 ∧ dev2.Name = dev.Name) := by
  induction ds generalizing ds2 with
  | nil => exact absurd h (by simp [ReadDevices])
  | cons dev rest ih =>
    simp only [ReadDevices] at h
    rcases hf : fs dev.Name with _ | lines
    · simp only [hf] at h
      rw [Prod.mk.injEq] at h
      obtain ⟨-, h2⟩ := h
      subst h2
      refine ⟨rfl, 0, by simp, fun i _ => rfl,
        fun i hi dev' _ => absurd hi (by omega), ?_⟩
      intro dv hdv
      rw [List.getElem?_cons_zero] at hdv
      injection hdv with hdv
      exact ⟨dv, by rw [List.getElem?_cons_zero, hdv], rfl⟩
    · simp only [hf] at h
      rcases hr : readDeviceLines dev 0 lines with ⟨err0, dev2⟩
      rw [hr] at h
      cases err0 with
      | some e0 =>
        have h' : ((some e0 : Option String), dev2 :: rest) = (some e, ds2) := h
        rw [Prod.mk.injEq] at h'
        obtain ⟨-, h2⟩ := h'
        subst h2
        refine ⟨by simp, 0, by simp, ?_,
          fun i hi dev' _ => absurd hi (by omega), ?_⟩
        · intro i hi
          cases i with
          | zero => omega
          | succ j => simp only [List.getElem?_cons_succ]
        · intro dv hdv
          rw [List.getElem?_cons_zero] at hdv
          injection hdv with hdv
          subst hdv
          refine ⟨dev2, List.getElem?_cons_zero, ?_⟩
          have hn := readDeviceLines_snd_Name lines dev 0
          rw [hr] at hn
          exact hn
      | none =>
        have h' : ((ReadDevices fs rest).1, dev2 :: (ReadDevices fs rest).2)
            = (some e, ds2) := h
        rcases hrr : ReadDevices fs rest with ⟨err1, rest2⟩
        rw [hrr] at h'
        have h'' : (err1, dev2 :: rest2) = (some e, ds2) := h'
        rw [Prod.mk.injEq] at h''
        obtain ⟨h1, h2⟩ := h''
        subst h2
        subst h1
        obtain ⟨hlen, k', hk', hsuf, hpre, hkth⟩ := ih rest2 hrr
        refine ⟨by simp [hlen], k' + 1, by simp; omega, ?_, ?_, ?_⟩
        · intro i hi
          cases i with
          | zero => omega
          | succ j =>
            simp only [List.getElem?_cons_succ]
            exact hsuf j (by omega)
        · intro i hi dv hdv
          cases i with
          | zero =>
            rw [List.getElem?_cons_zero] at hdv
            injection hdv with hdv
            subst hdv
            exact ⟨lines, dev2, hf, hr, List.getElem?_cons_zero⟩
          | succ j =>
            rw [List.getElem?_cons_succ] at hdv
            obtain ⟨lines', dev2', hfs', hrd', hget'⟩ := hpre j (by omega) dv hdv
            exact ⟨lines', dev2', hfs', hrd', by rw [List.getElem?_cons_succ]; exact hget'⟩
        · intro dv hdv
          rw [List.getElem?_cons_succ] at hdv
          obtain ⟨dv2, hget2, hname2⟩ := hkth dv hdv
          exact ⟨dv2, by rw [List.getElem?_cons_succ]; exact hget2, hname2⟩

/-- C3 witness for the amended theorem: two devices, the second with an
unopenable status file; the error report carries `k = 1`, device 1 is fully
updated and the failing device keeps its name. -/
theorem ReadDevices_error_frame_witness :
    ([⟨1, "28-a", "DS18B20", ((23562 : Int) : Rat) / 1000⟩,
      ⟨2, "28-b", "DS18B20", 0⟩] : List DS1820).length =
      ([⟨1, "28-a", "DS18B20", 0⟩, ⟨2, "28-b", "DS18B20", 0⟩] : List DS1820).length ∧
    ∃ k, k < ([⟨1, "28-a", "DS18B20", 0⟩, ⟨2, "28-b", "DS18B20", 0⟩] : List DS1820).length ∧
      (∀ i, k < i →
        ([⟨1, "28-a", "DS18B20", ((23562 : Int) : Rat) / 1000⟩,
          ⟨2, "28-b", "DS18B20", 0⟩] : List DS1820)[i]? =
        ([⟨1, "28-a", "DS18B20", 0⟩, ⟨2, "28-b", "DS18B20", 0⟩] : List DS1820)[i]?) ∧
      (∀ i, i < k → ∀ dev,
        ([⟨1, "28-a", "DS18B20", 0⟩, ⟨2, "28-b", "DS18B20", 0⟩] : List DS1820)[i]? = some dev →
        ∃ lines dev2,
          (fun n => if n = "28-a" then some ["ab crc=1a YES", "x t=23562"] else none) dev.Name
            = some lines ∧
          readDeviceLines dev 0 lines = (none, dev2) ∧
          ([⟨1, "28-a", "DS18B20", ((23562 : Int) : Rat) / 1000⟩,
            ⟨2, "28-b", "DS18B20", 0⟩] : List DS1820)[i]? = some dev2) ∧
      (∀ dev,
        ([⟨1, "28-a", "DS18B20", 0⟩, ⟨2, "28-b", "DS18B20", 0⟩] : List DS1820)[k]? = some dev →
        ∃ dev2,
          ([⟨1, "28-a", "DS18B20", ((23562 : Int) : Rat) / 1000⟩,
            ⟨2, "28-b", "DS18B20", 0⟩] : List DS1820)[k]? = some dev2 ∧
          dev2.Name = dev.Name) :=
  ReadDevices_error_frame
    (fun n => if n = "28-a" then some ["ab crc=1a YES", "x t=23562"] else none)
    [⟨1, "28-a", "DS18B20", 0⟩, ⟨2, "28-b", "DS18B20", 0⟩]
    [⟨1, "28-a", "DS18B20", ((23562 : Int) : Rat) / 1000⟩, ⟨2, "28-b", "DS18B20", 0⟩]
    "open /sys/bus/w1/devices/28-b/w1_slave: no such file or directory" rfl

end Rpionewire
